import Mathlib

/-!
Verification development for the container-service deployment helper
(`deployers/helpers/container_helper.py`).

The Python class `ContainerServiceHelper` is shallowly embedded here:

* Remote interactions (Azure management API calls, HTTP requests over the
  tunnel, subprocess spawning, sleeping) are made explicit: each operation
  is a pure Lean function from the helper's configuration, its mutable
  state and an *environment* (the responses the remote side would give)
  to a result together with a trace of the external calls it performs.
* Python exceptions are modelled with `Except`; an uncaught exception is
  an `Except.error` result that carries the raised value unchanged.
* Cancellation (`KeyboardInterrupt` and friends) behaves like any other
  exception propagating through a `with` block, so it is covered by the
  `Except.error` outcomes.
-/

namespace ContainerHelper

/-- Kind of a `CloudError` raised by the management API.  `msrestazure`
raises `CloudError` for every ARM error response: not-found, but also
auth failures, quota errors and throttled/transient errors. -/
inductive RemoteErrorKind
  | notFound
  | authFailure
  | quota
  | transient
deriving DecidableEq, Repr

/-- A Python exception as seen by `container_service`: either a
`CloudError` (with its kind and message) or any other exception. -/
inductive PyExc
  | cloud (k : RemoteErrorKind) (msg : String)
  | other (msg : String)
deriving DecidableEq, Repr

/-- Model of `ContainerServiceMasterProfile`.  The `fqdn` is filled in by
the server, so a locally synthesized request leaves it `none`. -/
structure MasterProfile where
  dnsLabel : String
  count : Nat
  fqdn : Option String
deriving DecidableEq, Repr

/-- Model of `ContainerServiceAgentPoolProfile`. -/
structure AgentPoolProfile where
  name : String
  count : Nat
  vmSize : String
  dnsLabel : String
deriving DecidableEq, Repr

/-- Model of `ContainerServiceSshPublicKey`. -/
structure SshPublicKey where
  keyData : String
deriving DecidableEq, Repr

/-- Model of `ContainerServiceSshConfiguration`. -/
structure SshConfiguration where
  publicKeys : List SshPublicKey
deriving DecidableEq, Repr

/-- Model of `ContainerServiceLinuxProfile`. -/
structure LinuxProfile where
  adminUsername : String
  ssh : SshConfiguration
deriving DecidableEq, Repr

/-- Model of `ContainerServiceOrchestratorProfile`. -/
structure OrchestratorProfile where
  orchestratorType : String
deriving DecidableEq, Repr

/-- Model of the `ContainerService` ARM model object. -/
structure ContainerService where
  location : String
  masterProfile : MasterProfile
  agentPoolProfiles : List AgentPoolProfile
  linuxProfile : LinuxProfile
  orchestratorProfile : OrchestratorProfile
deriving DecidableEq, Repr

/-- The helper's provisioning-relevant construction data: `self.name`,
the resource group's name and location (`self.resources.group`), and the
content of the public key file read by `_get_ssh_config`. -/
structure ProvisionCfg where
  name : String
  groupName : String
  location : String
  sshKeyData : String
deriving DecidableEq, Repr

/-- A remote call made by the provisioning path: the lookup
(`container_services.get`) or the mutating creation
(`container_services.create_or_update`, recorded with its parameters). -/
inductive RemoteCall
  | get (group name : String)
  | createOrUpdate (group name : String) (params : ContainerService)
deriving DecidableEq, Repr

/-- Is a remote call the mutating `create_or_update` call? -/
def RemoteCall.isCreate : RemoteCall → Bool
  | .createOrUpdate _ _ _ => true
  | _ => false

/-- Number of mutating `create_or_update` calls in a trace. -/
def createCount (t : List RemoteCall) : Nat :=
  t.countP RemoteCall.isCreate

/-- Environment for one evaluation of the `container_service` property:
what `container_services.get` would return (or raise), what
`create_or_update(...).result()` would return (or raise), and the
DNS label produced by the `Haikunator().haikunate()` call. -/
structure ProvisionEnv where
  lookup : Except PyExc ContainerService
  createResult : Except PyExc ContainerService
  dnsLabel : String

/-- The creation request synthesized in the `except CloudError` branch of
`container_service` (lines 56-77 of the source): single master with the
generated DNS label, one agent pool named after the helper with a
hard-coded VM size and the DNS label suffixed with `-agent`, a Linux
profile whose admin user is the helper's name and whose SSH configuration
holds the single public key read from disk, and the DCOS orchestrator. -/
def mkCreateParams (cfg : ProvisionCfg) (dnsLabel : String) : ContainerService where
  location := cfg.location
  masterProfile := { dnsLabel := dnsLabel, count := 1, fqdn := none }
  agentPoolProfiles :=
    [{ name := cfg.name, count := 1, vmSize := "Standard_D1_v2",
       dnsLabel := dnsLabel ++ "-agent" }]
  linuxProfile :=
    { adminUsername := cfg.name,
      ssh := { publicKeys := [{ keyData := cfg.sshKeyData }] } }
  orchestratorProfile := { orchestratorType := "DCOS" }

/-- One evaluation of the `container_service` property (lines 38-85).
Input state is the cached `self._container_service`; the result is the
value returned (or the exception raised, unchanged), the new cache state,
and the trace of remote calls issued.  The `except CloudError:` clause
catches every `CloudError`, whatever its kind; any other exception
propagates.  If `create_or_update(...).result()` raises, the cache field
is never assigned and stays `none`. -/
def container_service (cfg : ProvisionCfg) (st : Option ContainerService)
    (env : ProvisionEnv) :
    Except PyExc ContainerService × Option ContainerService × List RemoteCall :=
  match st with
  | some cs => (.ok cs, some cs, [])
  | none =>
    match env.lookup with
    | .ok cs => (.ok cs, some cs, [.get cfg.groupName cfg.name])
    | .error (.cloud _ _) =>
      let params := mkCreateParams cfg env.dnsLabel
      match env.createResult with
      | .ok cs =>
        (.ok cs, some cs,
         [.get cfg.groupName cfg.name,
          .createOrUpdate cfg.groupName cfg.name params])
      | .error e =>
        (.error e, none,
         [.get cfg.groupName cfg.name,
          .createOrUpdate cfg.groupName cfg.name params])
    | .error (.other m) =>
      (.error (.other m), none, [.get cfg.groupName cfg.name])

/-!  Deployment side: `deployment_id`, `marathon_deploy_params`,
`ssh_tunnel_args`, `cluster_ssh` and `deploy_container`. -/

/-- Python's `s.split('/')` restricted to the separator `'/'`, over the
character list of the string.  As in Python, the result is always a
non-empty list of (possibly empty) segments: `"".split('/') == ['']`,
`"/".split('/') == ['', '']`, `"a/b".split('/') == ['a', 'b']`. -/
def pySplitOnSlash : List Char → List (List Char)
  | [] => [[]]
  | c :: cs =>
    match pySplitOnSlash cs with
    | [] => [[]]
    | seg :: rest =>
      if c = '/' then [] :: seg :: rest else (c :: seg) :: rest

/-- Model of `deployment_id` (lines 139-140):
`self.docker_tag.split('/')[-1]`, the last element of the split.
Python's `[-1]` on the (always non-empty) split result is the last
segment; `List.getLastD` with an irrelevant default models it. -/
def deployment_id (dockerTag : String) : String :=
  String.mk ((pySplitOnSlash dockerTag.data).getLastD [])

/-- The private-registry collaborator, exposing
`storage.default_share` and `credentials_file_name` (lines 168-169). -/
structure RegistryRef where
  defaultShare : String
  credentialsFileName : String
deriving DecidableEq, Repr

/-- One `portMappings` entry of the Marathon request body. -/
structure PortMapping where
  hostPort : Nat
  containerPort : Nat
  protocol : String
deriving DecidableEq, Repr

/-- The Marathon deployment request body built by
`marathon_deploy_params`.  The optional `uris` field models the `"uris"`
key of the Python dict: `none` means the key is absent from the dict. -/
structure MarathonParams where
  id : String
  containerType : String
  dockerImage : String
  dockerNetwork : String
  portMappings : List PortMapping
  acceptedResourceRoles : List String
  instances : Nat
  cpus : Rat
  mem : Nat
  uris : Option (List String)
deriving DecidableEq, Repr

/-- Model of `marathon_deploy_params` (lines 142-172).  The `"uris"` key
is added only when a private registry helper is supplied, holding the
single URI `file:///mnt/<default_share>/<credentials_file_name>`. -/
def marathon_deploy_params (dockerTag : String) (reg : Option RegistryRef) :
    MarathonParams where
  id := deployment_id dockerTag
  containerType := "DOCKER"
  dockerImage := dockerTag
  dockerNetwork := "BRIDGE"
  portMappings := [{ hostPort := 80, containerPort := 80, protocol := "tcp" }]
  acceptedResourceRoles := ["slave_public"]
  instances := 1
  cpus := 0.1
  mem := 64
  uris := reg.map fun r =>
    ["file:///mnt/" ++ r.defaultShare ++ "/" ++ r.credentialsFileName]

/-- The helper data used by the tunnel/deploy/SSH paths: `self.name`,
`self.docker_tag`, the provisioned cluster's master FQDN
(`container_service.master_profile.fqdn`, read by
`master_ssh_address`), and the key path returned by `get_key_path`. -/
structure DeployCfg where
  name : String
  dockerTag : String
  masterFqdn : String
  keyPath : String
deriving DecidableEq, Repr

/-- Model of `master_ssh_login` (lines 107-111):
`'{}@{}'.format(self.name, self.master_ssh_address())`. -/
def master_ssh_login (cfg : DeployCfg) : String :=
  cfg.name ++ "@" ++ cfg.masterFqdn

/-- The keyword arguments built by `ssh_tunnel_args` (lines 113-122). -/
structure TunnelArgs where
  sshHost : String
  sshPort : Nat
  sshUsername : String
  remoteBindHost : String
  remoteBindPort : Nat
  localBindHost : String
  localBindPort : Nat
  sshPkey : String
deriving DecidableEq, Repr

/-- Model of `ssh_tunnel_args` (lines 113-122): SSH endpoint is the
master's address on the custom port 2200, the username is the helper's
name, and the key is the conventional key path. -/
def ssh_tunnel_args (cfg : DeployCfg) (remoteHost localHost : String)
    (remotePort localPort : Nat) : TunnelArgs where
  sshHost := cfg.masterFqdn
  sshPort := 2200
  sshUsername := cfg.name
  remoteBindHost := remoteHost
  remoteBindPort := remotePort
  localBindHost := localHost
  localBindPort := localPort
  sshPkey := cfg.keyPath

/-- The manual forwarding command printed when opening the tunnel fails
(line 215 of the source):
`'ssh -N -L {local_host}:{local_port}:{remote_host}:{remote_port} {addr}'`. -/
def manualSshCmd (localHost : String) (localPort : Nat) (remoteHost : String)
    (remotePort : Nat) (addr : String) : String :=
  "ssh -N -L " ++ localHost ++ ":" ++ toString localPort ++ ":" ++ remoteHost
    ++ ":" ++ toString remotePort ++ " " ++ addr

/-- An error raised while talking to Marathon through the tunnel: either
a transport-level `requests` error or a body that fails JSON decoding. -/
inductive ReqErr
  | transport (msg : String)
  | badJson (msg : String)
deriving DecidableEq, Repr

/-- The decoded JSON body of the POST response.  Only the presence of the
`deployments` key is ever inspected (and only for printing). -/
structure MarathonBody where
  deployments : Option (List String)
deriving DecidableEq, Repr

/-- An HTTP response as returned by `requests.post`: a status code
(returned for every completed exchange, success or not — `requests` does
not raise on non-2xx) and the outcome of calling `.json()` on it. -/
structure HttpResp where
  status : Nat
  body : Except ReqErr MarathonBody

/-- Environment for one run of `deploy_container`: whether the
`SSHTunnelForwarder` scope can be entered (`false` models
`HandlerSSHTunnelForwarderError` during establishment), the response to
the deployment POST, and the successive outcomes of the polling GETs
(each either an exception or the decoded JSON array). -/
structure DeployEnv where
  tunnelOk : Bool
  postResp : Except ReqErr HttpResp
  pollResponses : List (Except ReqErr (List String))

/-- An external call performed inside `deploy_container`. -/
inductive RCall
  | tunnelOpen
  | tunnelClose
  | postApps (params : MarathonParams)
  | getDeployments
  | sleepSec (n : Nat)
deriving DecidableEq, Repr

/-- Is a call the polling GET? -/
def RCall.isGet : RCall → Bool
  | .getDeployments => true
  | _ => false

/-- Is a call the tunnel teardown? -/
def RCall.isClose : RCall → Bool
  | .tunnelClose => true
  | _ => false

/-- Is a call the tunnel establishment? -/
def RCall.isOpen : RCall → Bool
  | .tunnelOpen => true
  | _ => false

/-- Number of polling GET calls in a trace. -/
def countGet (t : List RCall) : Nat := t.countP RCall.isGet

/-- The `while True` polling loop (lines 203-210), driven by the list of
GET outcomes.  Each iteration issues one GET; a raised exception aborts
the loop with that error; a non-empty array sleeps 5 seconds and loops;
an empty array breaks out normally.  If the supplied outcomes run out
before an empty array or an exception, the real loop would keep running:
that is modelled by the `none` result (divergence). -/
def pollLoop : List (Except ReqErr (List String)) →
    List RCall × Option (Except ReqErr Unit)
  | [] => ([], none)
  | r :: rs =>
    match r with
    | .error e => ([.getDeployments], some (.error e))
    | .ok l =>
      if l.isEmpty then ([.getDeployments], some (.ok ()))
      else
        let rec_result := pollLoop rs
        (.getDeployments :: .sleepSec 5 :: rec_result.1, rec_result.2)

/-- The body of the `with SSHTunnelForwarder(...)` block (lines 191-210):
POST the Marathon request, decode its JSON body (both print-only
inspections of the content are irrelevant to control flow), then run the
polling loop.  Result: the calls issued inside the scope and the body's
outcome (`none` = the polling loop never terminates). -/
def deployBody (cfg : DeployCfg) (reg : Option RegistryRef) (env : DeployEnv) :
    List RCall × Option (Except ReqErr Unit) :=
  let params := marathon_deploy_params cfg.dockerTag reg
  match env.postResp with
  | .error e => ([.postApps params], some (.error e))
  | .ok resp =>
    match resp.body with
    | .error e => ([.postApps params], some (.error e))
    | .ok _ =>
      let pl := pollLoop env.pollResponses
      (.postApps params :: pl.1, pl.2)

/-- Terminal outcome of `deploy_container`: normal return, an uncaught
exception propagating to the caller, the `HandlerSSHTunnelForwarderError`
handler (which prints the manual command and calls `sys.exit(1)`), or
divergence inside the polling loop. -/
inductive DeployOutcome
  | ok
  | error (e : ReqErr)
  | tunnelFailed (manualCmd : String) (exitCode : Nat)
  | diverged

/-- Result of a `deploy_container` run: the external calls made, in
order, and the terminal outcome. -/
structure DeployResult where
  trace : List RCall
  outcome : DeployOutcome

/-- Model of `deploy_container` (lines 174-222).  The `with` statement
guarantees the tunnel teardown runs whenever the scope was entered and
its body terminates (normally or with an exception); if tunnel
establishment itself fails the handler prints the manual SSH command
built from the tunnel host/ports and the master address and exits with
code 1, issuing no other call. -/
def deploy_container (cfg : DeployCfg) (reg : Option RegistryRef)
    (env : DeployEnv) : DeployResult :=
  if env.tunnelOk then
    let b := deployBody cfg reg env
    match b.2 with
    | some (.ok _) => { trace := .tunnelOpen :: b.1 ++ [.tunnelClose], outcome := .ok }
    | some (.error e) =>
      { trace := .tunnelOpen :: b.1 ++ [.tunnelClose], outcome := .error e }
    | none => { trace := .tunnelOpen :: b.1, outcome := .diverged }
  else
    { trace := [],
      outcome := .tunnelFailed
        (manualSshCmd "127.0.0.1" 8001 "127.0.0.1" 80 cfg.masterFqdn) 1 }

/-- A call observable from the `cluster_ssh` context manager. -/
inductive SshCall
  | popen (cmd : List String)
  | terminate
deriving DecidableEq, Repr

/-- Is a call the `proc.terminate()` call? -/
def SshCall.isTerm : SshCall → Bool
  | .terminate => true
  | _ => false

/-- Number of `terminate` calls in a trace. -/
def countTerm (t : List SshCall) : Nat := t.countP SshCall.isTerm

/-- Model of the `cluster_ssh` context manager (lines 124-137).
`spawn` is the outcome of `subprocess.Popen` (an exception there is
re-raised after a message); `body` is the outcome of the code executed
inside the `with` scope at the `yield`.  `proc.terminate()` stands on
the line after the `yield` with no `try/finally`, so it runs only when
the scope body returns normally; an exception thrown into the generator
at the `yield` propagates past it. -/
def cluster_ssh (cfg : DeployCfg) (spawn : Except String Unit)
    (body : Except String Unit) : List SshCall × Except String Unit :=
  match spawn with
  | .error e => ([], .error e)
  | .ok _ =>
    let cmd := ["ssh", "-i", cfg.keyPath, master_ssh_login cfg]
    match body with
    | .ok _ => ([.popen cmd, .terminate], .ok ())
    | .error e => ([.popen cmd], .error e)

/-- Follows the spec's words (§3, ClusterDescriptor) rather than the
source, for comparison against the code-derived creation request: the
spec's descriptor carries a `vmSize` and an `orchestratorKind` that the
creation request is claimed to be built from. -/
structure SpecClusterDescriptor where
  name : String
  location : String
  vmSize : String
  sshPublicKey : String
  orchestratorKind : String
deriving DecidableEq, Repr

/-!  Sample concrete inputs used by witness and counterexample theorems. -/

/-- Sample provisioning configuration. -/
def provCfgSample : ProvisionCfg where
  name := "svc"
  groupName := "rg"
  location := "westus"
  sshKeyData := "ssh-rsa AAAA"

/-- Sample `ContainerService` model value returned by the remote side. -/
def csSample : ContainerService :=
  mkCreateParams provCfgSample "demo"

/-- Sample deployment configuration. -/
def cfgSample : DeployCfg where
  name := "svc"
  dockerTag := "registry.example.com/myorg/myapp"
  masterFqdn := "master.example.com"
  keyPath := "/root/.ssh/id_rsa"

/-- Sample deploy environment: tunnel opens, POST succeeds with status
200, the single polling GET returns an empty array. -/
def envDeployOkSample : DeployEnv where
  tunnelOk := true
  postResp := .ok { status := 200, body := .ok { deployments := some ["dep1"] } }
  pollResponses := [.ok []]

/-- Sample deploy environment where tunnel establishment fails. -/
def envTunnelFailSample : DeployEnv where
  tunnelOk := false
  postResp := .error (.transport "unreachable")
  pollResponses := []

/-- Sample deploy environment where the POST raises a transport error. -/
def envPostErrSample : DeployEnv where
  tunnelOk := true
  postResp := .error (.transport "connection refused")
  pollResponses := [.ok []]

/-- Sample deploy environment: the POST completes with the non-2xx
status 500 and a decodable JSON body; one empty polling response. -/
def envPost500Sample : DeployEnv where
  tunnelOk := true
  postResp := .ok { status := 500, body := .ok { deployments := none } }
  pollResponses := [.ok []]

/-- Sample provisioning environment where the lookup finds the cluster. -/
def envLookupOkSample : ProvisionEnv where
  lookup := .ok csSample
  createResult := .ok csSample
  dnsLabel := "demo"

/-- Sample provisioning environment where the lookup raises a not-found
`CloudError` and creation succeeds. -/
def envNotFoundSample : ProvisionEnv where
  lookup := .error (.cloud .notFound "ResourceNotFound")
  createResult := .ok csSample
  dnsLabel := "demo"

/-- Sample provisioning environment where the lookup raises an
auth-failure `CloudError`. -/
def envAuthFailSample : ProvisionEnv where
  lookup := .error (.cloud .authFailure "AuthorizationFailed")
  createResult := .ok csSample
  dnsLabel := "demo"

/-- Sample provisioning environment where the lookup raises an exception
that is not a `CloudError`. -/
def envOtherErrSample : ProvisionEnv where
  lookup := .error (.other "ConnectionResetError")
  createResult := .ok csSample
  dnsLabel := "demo"

/-!  Helper lemmas about the polling loop, the Python split, and traces. -/

theorem pySplit_cons (c : Char) (cs : List Char) :
    pySplitOnSlash (c :: cs) =
      match pySplitOnSlash cs with
      | [] => [[]]
      | seg :: rest =>
        if c = '/' then [] :: seg :: rest else (c :: seg) :: rest := rfl

theorem pySplit_ne_nil (l : List Char) : pySplitOnSlash l ≠ [] := by
  induction l with
  | nil => simp [pySplitOnSlash]
  | cons c cs ih =>
    rw [pySplit_cons]
    cases h : pySplitOnSlash cs with
    | nil => simp
    | cons seg rest =>
      by_cases hc : c = '/' <;> simp [hc]

theorem pySplit_no_slash (l : List Char) (h : '/' ∉ l) :
    pySplitOnSlash l = [l] := by
  induction l with
  | nil => rfl
  | cons c cs ih =>
    have hc : c ≠ '/' := fun e => h (by simp [e])
    rw [pySplit_cons, ih fun hm => h (List.mem_cons_of_mem _ hm)]
    simp [hc]

theorem two_le_pySplit_length (a b : List Char) :
    2 ≤ (pySplitOnSlash (a ++ '/' :: b)).length := by
  induction a with
  | nil =>
    rw [List.nil_append, pySplit_cons]
    cases h : pySplitOnSlash b with
    | nil => exact absurd h (pySplit_ne_nil b)
    | cons seg rest => simp
  | cons c a' ih =>
    rw [List.cons_append, pySplit_cons]
    cases h : pySplitOnSlash (a' ++ '/' :: b) with
    | nil => exact absurd h (pySplit_ne_nil _)
    | cons seg rest =>
      rw [h] at ih
      simp at ih
      by_cases hc : c = '/' <;> simp [hc] <;> omega

theorem pySplit_getLastD_append (a b : List Char) :
    (pySplitOnSlash (a ++ '/' :: b)).getLastD []
      = (pySplitOnSlash b).getLastD [] := by
  induction a with
  | nil =>
    rw [List.nil_append, pySplit_cons]
    cases h : pySplitOnSlash b with
    | nil => exact absurd h (pySplit_ne_nil b)
    | cons seg rest => simp [List.getLastD_cons]
  | cons c a' ih =>
    rw [List.cons_append, pySplit_cons]
    cases h : pySplitOnSlash (a' ++ '/' :: b) with
    | nil => exact absurd h (pySplit_ne_nil _)
    | cons seg rest =>
      rw [h] at ih
      have hlen := two_le_pySplit_length a' b
      rw [h] at hlen
      cases rest with
      | nil => simp at hlen
      | cons r rs =>
        by_cases hc : c = '/' <;>
          simp only [hc, if_true, if_false, List.getLastD_cons] at ih ⊢ <;>
          exact ih

/-- C8: for every image reference string, the deployment request id is
the substring after the final `/` of the reference — splitting the
reference at a `/` whose right part contains no further `/` yields that
right part — and a reference containing no `/` is returned whole. -/
theorem deployment_id_last_segment :
    (∀ a b : String, '/' ∉ b.data → deployment_id (a ++ "/" ++ b) = b)
    ∧ ∀ t : String, '/' ∉ t.data → deployment_id t = t := by
  constructor
  · intro a b hb
    have hdata : (a ++ "/" ++ b).data = a.data ++ '/' :: b.data := by
      show (a.data ++ '/' :: []) ++ b.data = a.data ++ '/' :: b.data
      simp
    show String.mk ((pySplitOnSlash (a ++ "/" ++ b).data).getLastD []) = b
    rw [hdata, pySplit_getLastD_append, pySplit_no_slash _ hb]
    rfl
  · intro t ht
    show String.mk ((pySplitOnSlash t.data).getLastD []) = t
    rw [pySplit_no_slash _ ht]
    rfl

/-- C8 witness: concrete evaluation of the two cases of
`deployment_id_last_segment`. -/
theorem deployment_id_last_segment_witness :
    ('/' ∉ "myapp".data)
    ∧ deployment_id ("registry.example.com/myorg" ++ "/" ++ "myapp") = "myapp"
    ∧ deployment_id "myapp" = "myapp" :=
  ⟨by decide,
   deployment_id_last_segment.1 "registry.example.com/myorg" "myapp" (by decide),
   deployment_id_last_segment.2 "myapp" (by decide)⟩

/-- C9: with a registry reference the request's `uris` field holds
exactly `file:///mnt/<share>/<file>`; without one the field is absent;
and the two requests agree on every other field. -/
theorem marathon_params_uris (dockerTag : String) (r : RegistryRef) :
    (marathon_deploy_params dockerTag (some r)).uris
        = some ["file:///mnt/" ++ r.defaultShare ++ "/" ++ r.credentialsFileName]
    ∧ (marathon_deploy_params dockerTag none).uris = none
    ∧ marathon_deploy_params dockerTag (some r)
        = { marathon_deploy_params dockerTag none with
            uris := some
              ["file:///mnt/" ++ r.defaultShare ++ "/" ++ r.credentialsFileName] } :=
  ⟨rfl, rfl, rfl⟩

/-- C10: in `cluster_ssh`, the subprocess receives `terminate` exactly
once when the scope body exits normally; when the body raises, no
`terminate` is sent (the spawned handle is leaked) and the exception
propagates. -/
theorem cluster_ssh_terminate_on_normal_exit_only (cfg : DeployCfg)
    (body : Except String Unit) :
    (body = Except.ok () →
      cluster_ssh cfg (Except.ok ()) body
        = ([SshCall.popen ["ssh", "-i", cfg.keyPath, master_ssh_login cfg],
            SshCall.terminate], Except.ok ())
      ∧ countTerm (cluster_ssh cfg (Except.ok ()) body).1 = 1)
    ∧ ∀ e : String, body = Except.error e →
        countTerm (cluster_ssh cfg (Except.ok ()) body).1 = 0
        ∧ SshCall.popen ["ssh", "-i", cfg.keyPath, master_ssh_login cfg]
            ∈ (cluster_ssh cfg (Except.ok ()) body).1
        ∧ (cluster_ssh cfg (Except.ok ()) body).2 = Except.error e := by
  constructor
  · intro h
    subst h
    exact ⟨rfl, rfl⟩
  · intro e h
    subst h
    exact ⟨rfl, by simp [cluster_ssh], rfl⟩

/-- C10 witness: concrete normal-exit and raising bodies. -/
theorem cluster_ssh_terminate_witness :
    countTerm (cluster_ssh cfgSample (Except.ok ()) (Except.ok ())).1 = 1
    ∧ countTerm
        (cluster_ssh cfgSample (Except.ok ()) (Except.error "interrupted")).1 = 0 :=
  ⟨((cluster_ssh_terminate_on_normal_exit_only cfgSample (Except.ok ())).1 rfl).2,
   ((cluster_ssh_terminate_on_normal_exit_only cfgSample
      (Except.error "interrupted")).2 "interrupted" rfl).1⟩

/-- Number of GETs contributed by the non-empty polling responses. -/
theorem countGet_flatMap (pre : List (List String)) :
    countGet (pre.flatMap fun _ => [RCall.getDeployments, RCall.sleepSec 5])
      = pre.length := by
  induction pre with
  | nil => rfl
  | cons x xs ih =>
    simp only [List.flatMap_cons, countGet, List.countP_append, List.countP_cons,
      List.length_cons] at ih ⊢
    simp [RCall.isGet, ih]
    omega

/-- C4: on a response sequence of non-empty arrays followed by one empty
array, the polling loop issues one GET per response, sleeps 5 seconds
after each non-empty response, and terminates normally right after the
first empty response. -/
theorem deploy_polling_loop (pre : List (List String))
    (h : ∀ l ∈ pre, l ≠ []) :
    pollLoop (pre.map Except.ok ++ [Except.ok []])
      = ((pre.flatMap fun _ => [RCall.getDeployments, RCall.sleepSec 5])
           ++ [RCall.getDeployments], some (Except.ok ()))
    ∧ countGet (pollLoop (pre.map Except.ok ++ [Except.ok []])).1
        = pre.length + 1 := by
  have main : pollLoop (pre.map Except.ok ++ [Except.ok []])
      = ((pre.flatMap fun _ => [RCall.getDeployments, RCall.sleepSec 5])
           ++ [RCall.getDeployments], some (Except.ok ())) := by
    induction pre with
    | nil => rfl
    | cons x xs ih =>
      have hx : x.isEmpty = false := by
        cases hx : x with
        | nil => exact absurd rfl (hx ▸ h x (by simp))
        | cons y ys => rfl
      have ihr := ih fun l hl => h l (List.mem_cons_of_mem _ hl)
      simp only [List.map_cons, List.cons_append, pollLoop, hx, Bool.false_eq_true,
        if_false, List.append_eq, ihr, List.flatMap_cons]
      rfl
  refine ⟨main, ?_⟩
  rw [main]
  show countGet ((pre.flatMap fun _ => [RCall.getDeployments, RCall.sleepSec 5])
    ++ [RCall.getDeployments]) = pre.length + 1
  rw [countGet, List.countP_append, ← countGet, countGet_flatMap]
  rfl

/-- C4 witness: the spec's own example, two non-empty responses followed
by an empty one — exactly 3 GETs with a 5-second sleep after each
non-empty response. -/
theorem deploy_polling_loop_witness :
    (∀ l ∈ [["d1"], ["d2"]], l ≠ ([] : List String))
    ∧ pollLoop ([["d1"], ["d2"]].map Except.ok ++ [Except.ok []])
        = ([RCall.getDeployments, RCall.sleepSec 5, RCall.getDeployments,
            RCall.sleepSec 5, RCall.getDeployments], some (Except.ok ()))
    ∧ countGet (pollLoop ([["d1"], ["d2"]].map Except.ok ++ [Except.ok []])).1
        = 3 :=
  ⟨by decide, (deploy_polling_loop [["d1"], ["d2"]] (by decide)).1,
   (deploy_polling_loop [["d1"], ["d2"]] (by decide)).2⟩

/-- C1: on a fresh helper, once a call to the `container_service`
property succeeds, the next call issues no remote call at all and
returns the cached object, and the two calls together issue at most one
mutating `create_or_update`. -/
theorem container_service_idempotent_cache (cfg : ProvisionCfg)
    (env1 env2 : ProvisionEnv) (cs : ContainerService)
    (h : (container_service cfg none env1).1 = Except.ok cs) :
    (container_service cfg (container_service cfg none env1).2.1 env2).2.2 = []
    ∧ (container_service cfg (container_service cfg none env1).2.1 env2).1
        = Except.ok cs
    ∧ createCount (container_service cfg none env1).2.2
        + createCount
            (container_service cfg (container_service cfg none env1).2.1 env2).2.2
        ≤ 1 := by
  have hst : (container_service cfg none env1).2.1 = some cs
      ∧ createCount (container_service cfg none env1).2.2 ≤ 1 := by
    cases hl : env1.lookup with
    | ok cs' =>
      simp only [container_service, hl] at h ⊢
      obtain rfl : cs' = cs := by simpa using h
      exact ⟨rfl, by simp [createCount, RemoteCall.isCreate]⟩
    | error e =>
      cases e with
      | cloud k m =>
        cases hc : env1.createResult with
        | ok cs' =>
          simp only [container_service, hl, hc] at h ⊢
          obtain rfl : cs' = cs := by simpa using h
          exact ⟨rfl, by simp [createCount, RemoteCall.isCreate, List.countP_cons]⟩
        | error e2 => simp [container_service, hl, hc] at h
      | other m => simp [container_service, hl] at h
  rw [hst.1]
  exact ⟨rfl, rfl, by simpa [container_service, createCount] using hst.2⟩

/-- C1 witness: a successful first call (the lookup finds the cluster)
followed by a second call that stays local. -/
theorem container_service_idempotent_cache_witness :
    (container_service provCfgSample
        (container_service provCfgSample none envLookupOkSample).2.1
        envNotFoundSample).2.2 = []
    ∧ (container_service provCfgSample
        (container_service provCfgSample none envLookupOkSample).2.1
        envNotFoundSample).1 = Except.ok csSample
    ∧ createCount (container_service provCfgSample none envLookupOkSample).2.2
        + createCount (container_service provCfgSample
            (container_service provCfgSample none envLookupOkSample).2.1
            envNotFoundSample).2.2 ≤ 1 :=
  container_service_idempotent_cache provCfgSample envLookupOkSample
    envNotFoundSample csSample rfl

/-- C2 counterexample: the `except CloudError:` clause catches every
`CloudError`, so a lookup failing with an auth-failure `CloudError`
(not a not-found error) still triggers a creation request instead of
propagating the error. -/
theorem container_service_creates_on_auth_error :
    envAuthFailSample.lookup
      = Except.error (PyExc.cloud RemoteErrorKind.authFailure "AuthorizationFailed")
    ∧ createCount (container_service provCfgSample none envAuthFailSample).2.2 = 1
    ∧ (container_service provCfgSample none envAuthFailSample).1
        = Except.ok csSample :=
  ⟨rfl, rfl, rfl⟩

/-- C2 amended: a creation request is issued iff the lookup fails with a
`CloudError` of any class; only failures that are not `CloudError`s
propagate unchanged with no creation request. -/
theorem container_service_create_iff_cloud (cfg : ProvisionCfg)
    (env : ProvisionEnv) :
    (0 < createCount (container_service cfg none env).2.2
      ↔ ∃ k m, env.lookup = Except.error (PyExc.cloud k m))
    ∧ ∀ m, env.lookup = Except.error (PyExc.other m) →
        (container_service cfg none env).2.2
            = [RemoteCall.get cfg.groupName cfg.name]
        ∧ (container_service cfg none env).1
            = Except.error (PyExc.other m) := by
  constructor
  · cases hl : env.lookup with
    | ok cs => simp [container_service, hl, createCount, RemoteCall.isCreate]
    | error e =>
      cases e with
      | cloud k m =>
        constructor
        · intro _
          exact ⟨k, m, rfl⟩
        · intro _
          cases hc : env.createResult <;>
            simp [container_service, hl, hc, createCount, RemoteCall.isCreate,
              List.countP_cons]
      | other m => simp [container_service, hl, createCount, RemoteCall.isCreate]
  · intro m hm
    exact ⟨by simp [container_service, hm], by simp [container_service, hm]⟩

/-- C2 amended witness: a lookup failing with an exception that is not a
`CloudError` issues only the lookup call and propagates the exception. -/
theorem container_service_create_iff_cloud_witness :
    (container_service provCfgSample none envOtherErrSample).2.2
        = [RemoteCall.get "rg" "svc"]
    ∧ (container_service provCfgSample none envOtherErrSample).1
        = Except.error (PyExc.other "ConnectionResetError") :=
  (container_service_create_iff_cloud provCfgSample envOtherErrSample).2
    "ConnectionResetError" rfl

/-- C7 counterexample: the synthesized creation request does not take
the agent pool VM size from the descriptor — it is the hard-coded
`Standard_D1_v2`, so a descriptor asking for `Standard_D2_v2` is not
honored. -/
theorem create_request_vm_size_not_from_descriptor :
    ¬ ∀ (D : SpecClusterDescriptor) (p : String),
        (mkCreateParams
            { name := D.name, groupName := "rg", location := D.location,
              sshKeyData := D.sshPublicKey } p).agentPoolProfiles.map
          AgentPoolProfile.vmSize = [D.vmSize] := by
  intro hall
  have h := hall
    { name := "svc", location := "westus", vmSize := "Standard_D2_v2",
      sshPublicKey := "ssh-rsa AAAA", orchestratorKind := "DCOS" } "demo"
  simp [mkCreateParams] at h

/-- C7 amended: when the lookup raises a `CloudError`, the creation
request submitted has a single master with count 1 and the generated DNS
label, exactly one agent pool with the fixed VM size `Standard_D1_v2`
and the DNS label suffixed `-agent`, an SSH profile holding the
descriptor's public key, and the fixed orchestrator type `DCOS`. -/
theorem container_service_create_request_shape (cfg : ProvisionCfg)
    (env : ProvisionEnv) (k : RemoteErrorKind) (m : String)
    (h : env.lookup = Except.error (PyExc.cloud k m)) :
    (container_service cfg none env).2.2
      = [RemoteCall.get cfg.groupName cfg.name,
         RemoteCall.createOrUpdate cfg.groupName cfg.name
           (mkCreateParams cfg env.dnsLabel)]
    ∧ (mkCreateParams cfg env.dnsLabel).masterProfile.count = 1
    ∧ (mkCreateParams cfg env.dnsLabel).masterProfile.dnsLabel = env.dnsLabel
    ∧ (mkCreateParams cfg env.dnsLabel).agentPoolProfiles
        = [{ name := cfg.name, count := 1, vmSize := "Standard_D1_v2",
             dnsLabel := env.dnsLabel ++ "-agent" }]
    ∧ (mkCreateParams cfg env.dnsLabel).linuxProfile.ssh.publicKeys
        = [{ keyData := cfg.sshKeyData }]
    ∧ (mkCreateParams cfg env.dnsLabel).orchestratorProfile.orchestratorType
        = "DCOS" := by
  refine ⟨?_, rfl, rfl, rfl, rfl, rfl⟩
  cases hc : env.createResult <;> simp [container_service, h, hc]

/-- C7 amended witness: concrete not-found lookup and the resulting
creation request trace. -/
theorem container_service_create_request_shape_witness :
    (container_service provCfgSample none envNotFoundSample).2.2
      = [RemoteCall.get "rg" "svc",
         RemoteCall.createOrUpdate "rg" "svc" (mkCreateParams provCfgSample "demo")]
    ∧ (mkCreateParams provCfgSample "demo").masterProfile.count = 1
    ∧ (mkCreateParams provCfgSample "demo").masterProfile.dnsLabel = "demo"
    ∧ (mkCreateParams provCfgSample "demo").agentPoolProfiles
        = [{ name := "svc", count := 1, vmSize := "Standard_D1_v2",
             dnsLabel := "demo" ++ "-agent" }]
    ∧ (mkCreateParams provCfgSample "demo").linuxProfile.ssh.publicKeys
        = [{ keyData := "ssh-rsa AAAA" }]
    ∧ (mkCreateParams provCfgSample "demo").orchestratorProfile.orchestratorType
        = "DCOS" :=
  container_service_create_request_shape provCfgSample envNotFoundSample
    RemoteErrorKind.notFound "ResourceNotFound" rfl

/-- The polling loop issues no tunnel open or close calls of its own. -/
theorem pollLoop_no_tunnel (rs : List (Except ReqErr (List String))) :
    (pollLoop rs).1.countP RCall.isClose = 0
    ∧ (pollLoop rs).1.countP RCall.isOpen = 0 := by
  induction rs with
  | nil => exact ⟨rfl, rfl⟩
  | cons r rest ih =>
    cases r with
    | error e => exact ⟨rfl, rfl⟩
    | ok l =>
      by_cases hl : l.isEmpty
      · simp [pollLoop, hl, RCall.isClose, RCall.isOpen]
      · simp only [pollLoop, hl, Bool.false_eq_true, if_false, List.countP_cons,
          RCall.isClose, RCall.isOpen]
        simpa using ih

/-- The body of the tunnel scope issues no tunnel open or close calls
of its own. -/
theorem deployBody_no_tunnel (cfg : DeployCfg) (reg : Option RegistryRef)
    (env : DeployEnv) :
    (deployBody cfg reg env).1.countP RCall.isClose = 0
    ∧ (deployBody cfg reg env).1.countP RCall.isOpen = 0 := by
  cases hp : env.postResp with
  | error e => simp [deployBody, hp, RCall.isClose, RCall.isOpen]
  | ok resp =>
    cases hb : resp.body with
    | error e => simp [deployBody, hp, hb, RCall.isClose, RCall.isOpen]
    | ok content =>
      simp only [deployBody, hp, hb, List.countP_cons, RCall.isClose, RCall.isOpen]
      simpa using pollLoop_no_tunnel env.pollResponses

/-- C3: whenever the tunnel scope is entered and its body terminates —
normally or by raising (including an interrupt modelled as a raised
exception) — the trace is the scope body bracketed by exactly one tunnel
open and one tunnel close, and the close is the last action before
control returns. -/
theorem deploy_container_tunnel_teardown (cfg : DeployCfg)
    (reg : Option RegistryRef) (env : DeployEnv) (r : Except ReqErr Unit)
    (hT : env.tunnelOk = true)
    (hB : (deployBody cfg reg env).2 = some r) :
    (deploy_container cfg reg env).trace
      = RCall.tunnelOpen :: (deployBody cfg reg env).1 ++ [RCall.tunnelClose]
    ∧ (deploy_container cfg reg env).trace.getLast? = some RCall.tunnelClose
    ∧ (deploy_container cfg reg env).trace.countP RCall.isClose = 1
    ∧ (deploy_container cfg reg env).trace.countP RCall.isOpen = 1 := by
  have htr : (deploy_container cfg reg env).trace
      = RCall.tunnelOpen :: (deployBody cfg reg env).1 ++ [RCall.tunnelClose] := by
    cases r with
    | ok u => simp [deploy_container, hT, hB]
    | error e => simp [deploy_container, hT, hB]
  refine ⟨htr, ?_, ?_, ?_⟩
  · rw [htr]
    exact List.getLast?_concat (RCall.tunnelOpen :: (deployBody cfg reg env).1)
  · rw [htr]
    simp only [← List.cons_append, List.countP_append, List.countP_cons,
      RCall.isClose]
    have h0 := (deployBody_no_tunnel cfg reg env).1
    simp only [RCall.isClose] at h0
    simp [h0]
  · rw [htr]
    simp only [← List.cons_append, List.countP_append, List.countP_cons,
      RCall.isOpen]
    have h0 := (deployBody_no_tunnel cfg reg env).2
    simp only [RCall.isOpen] at h0
    simp [h0]

/-- C3 witness: concrete successful run — tunnel closed last, exactly
one open and one close. -/
theorem deploy_container_tunnel_teardown_witness :
    (deploy_container cfgSample none envDeployOkSample).trace
      = RCall.tunnelOpen :: (deployBody cfgSample none envDeployOkSample).1
          ++ [RCall.tunnelClose]
    ∧ (deploy_container cfgSample none envDeployOkSample).trace.getLast?
        = some RCall.tunnelClose
    ∧ (deploy_container cfgSample none envDeployOkSample).trace.countP
        RCall.isClose = 1
    ∧ (deploy_container cfgSample none envDeployOkSample).trace.countP
        RCall.isOpen = 1 :=
  deploy_container_tunnel_teardown cfgSample none envDeployOkSample
    (Except.ok ()) rfl rfl

/-- C5 counterexample: the manual command printed on tunnel failure is
`ssh -N -L 127.0.0.1:8001:127.0.0.1:80 <master address>`; it contains
neither the custom SSH port 2200, nor the `<user>@` target prefix, nor
the private key path, although the tunnel spec carries all three. -/
theorem deploy_tunnel_cmd_lacks_components :
    (deploy_container cfgSample none envTunnelFailSample).outcome
      = DeployOutcome.tunnelFailed
          "ssh -N -L 127.0.0.1:8001:127.0.0.1:80 master.example.com" 1
    ∧ (ssh_tunnel_args cfgSample "127.0.0.1" "127.0.0.1" 80 8001).sshPort = 2200
    ∧ (ssh_tunnel_args cfgSample "127.0.0.1" "127.0.0.1" 80 8001).sshUsername
        = "svc"
    ∧ (ssh_tunnel_args cfgSample "127.0.0.1" "127.0.0.1" 80 8001).sshPkey
        = "/root/.ssh/id_rsa"
    ∧ ¬ ("2200".data
          <:+: "ssh -N -L 127.0.0.1:8001:127.0.0.1:80 master.example.com".data)
    ∧ ¬ ("svc@".data
          <:+: "ssh -N -L 127.0.0.1:8001:127.0.0.1:80 master.example.com".data)
    ∧ ¬ ("/root/.ssh/id_rsa".data
          <:+: "ssh -N -L 127.0.0.1:8001:127.0.0.1:80 master.example.com".data) :=
  ⟨rfl, rfl, rfl, rfl, by decide, by decide, by decide⟩

/-- C5 amended: when tunnel establishment fails, the run makes no
submission or polling call, terminates through `sys.exit(1)` reporting
the manual forwarding command, and that command carries the local
host/port, the remote host/port and the master address (but not the SSH
username, the custom port or the key path). -/
theorem deploy_tunnel_failure_aborts (cfg : DeployCfg)
    (reg : Option RegistryRef) (env : DeployEnv)
    (h : env.tunnelOk = false) :
    (deploy_container cfg reg env).trace = []
    ∧ (deploy_container cfg reg env).outcome
        = DeployOutcome.tunnelFailed
            (manualSshCmd "127.0.0.1" 8001 "127.0.0.1" 80 cfg.masterFqdn) 1
    ∧ "127.0.0.1:8001".data
        <:+: (manualSshCmd "127.0.0.1" 8001 "127.0.0.1" 80 cfg.masterFqdn).data
    ∧ "127.0.0.1:80".data
        <:+: (manualSshCmd "127.0.0.1" 8001 "127.0.0.1" 80 cfg.masterFqdn).data
    ∧ cfg.masterFqdn.data
        <:+: (manualSshCmd "127.0.0.1" 8001 "127.0.0.1" 80 cfg.masterFqdn).data := by
  have hcmd : (manualSshCmd "127.0.0.1" 8001 "127.0.0.1" 80 cfg.masterFqdn).data
      = "ssh -N -L 127.0.0.1:8001:127.0.0.1:80 ".data ++ cfg.masterFqdn.data := rfl
  refine ⟨?_, ?_, ?_, ?_, ?_⟩
  · simp [deploy_container, h]
  · simp [deploy_container, h]
  · rw [hcmd]
    exact List.IsInfix.trans (by decide)
      (List.prefix_append "ssh -N -L 127.0.0.1:8001:127.0.0.1:80 ".data
        cfg.masterFqdn.data).isInfix
  · rw [hcmd]
    exact List.IsInfix.trans (by decide)
      (List.prefix_append "ssh -N -L 127.0.0.1:8001:127.0.0.1:80 ".data
        cfg.masterFqdn.data).isInfix
  · rw [hcmd]
    exact (List.suffix_append "ssh -N -L 127.0.0.1:8001:127.0.0.1:80 ".data
      cfg.masterFqdn.data).isInfix

/-- C5 amended witness: concrete tunnel-establishment failure. -/
theorem deploy_tunnel_failure_aborts_witness :
    (deploy_container cfgSample none envTunnelFailSample).trace = []
    ∧ (deploy_container cfgSample none envTunnelFailSample).outcome
        = DeployOutcome.tunnelFailed
            (manualSshCmd "127.0.0.1" 8001 "127.0.0.1" 80 "master.example.com") 1
    ∧ "127.0.0.1:8001".data
        <:+: (manualSshCmd "127.0.0.1" 8001 "127.0.0.1" 80 "master.example.com").data
    ∧ "127.0.0.1:80".data
        <:+: (manualSshCmd "127.0.0.1" 8001 "127.0.0.1" 80 "master.example.com").data
    ∧ "master.example.com".data
        <:+: (manualSshCmd "127.0.0.1" 8001 "127.0.0.1" 80 "master.example.com").data :=
  deploy_tunnel_failure_aborts cfgSample none envTunnelFailSample rfl

/-- C6 counterexample: a POST response with the non-2xx status 500 whose
body decodes as JSON does not abort the workflow — the polling phase is
entered (one GET) and the run finishes normally. -/
theorem deploy_ignores_response_status :
    envPost500Sample.postResp
      = Except.ok { status := 500, body := Except.ok { deployments := none } }
    ∧ countGet (deploy_container cfgSample none envPost500Sample).trace = 1
    ∧ (deploy_container cfgSample none envPost500Sample).outcome
        = DeployOutcome.ok :=
  ⟨rfl, rfl, rfl⟩

/-- C6 amended: a transport error raised by the POST, or a POST response
body that fails JSON decoding, is fatal — the error is surfaced to the
caller unretried and the polling phase is never entered (the HTTP status
code itself is never inspected). -/
theorem deploy_post_error_fatal (cfg : DeployCfg) (reg : Option RegistryRef)
    (env : DeployEnv) (e : ReqErr)
    (hT : env.tunnelOk = true)
    (hE : env.postResp = Except.error e
          ∨ ∃ resp, env.postResp = Except.ok resp ∧ resp.body = Except.error e) :
    (deploy_container cfg reg env).trace
      = [RCall.tunnelOpen,
         RCall.postApps (marathon_deploy_params cfg.dockerTag reg),
         RCall.tunnelClose]
    ∧ (deploy_container cfg reg env).outcome = DeployOutcome.error e
    ∧ countGet (deploy_container cfg reg env).trace = 0 := by
  have hbody : deployBody cfg reg env
      = ([RCall.postApps (marathon_deploy_params cfg.dockerTag reg)],
         some (Except.error e)) := by
    rcases hE with h | ⟨resp, hr, hb⟩
    · simp [deployBody, h]
    · simp [deployBody, hr, hb]
  refine ⟨?_, ?_, ?_⟩ <;>
    simp [deploy_container, hT, hbody, countGet, RCall.isGet]

/-- C6 amended witness: concrete transport failure of the POST. -/
theorem deploy_post_error_fatal_witness :
    (deploy_container cfgSample none envPostErrSample).trace
      = [RCall.tunnelOpen,
         RCall.postApps (marathon_deploy_params "registry.example.com/myorg/myapp" none),
         RCall.tunnelClose]
    ∧ (deploy_container cfgSample none envPostErrSample).outcome
        = DeployOutcome.error (ReqErr.transport "connection refused")
    ∧ countGet (deploy_container cfgSample none envPostErrSample).trace = 0 :=
  deploy_post_error_fatal cfgSample none envPostErrSample
    (ReqErr.transport "connection refused") rfl (Or.inl rfl)

end ContainerHelper
